import Mathlib

/-!
Verification development for the KASPAY multi-crypto payment demo
(`src/Kaspay.py`). The core logic — quote lookup with cached fallback,
order creation and pricing, the payment-URI builder, the status-check stub,
and the order-management handlers (expiry sweep, clear-expired, delete,
mark-confirmed) — is shallowly embedded here.

Modelling conventions:
  - Python floats carrying money/price values are modelled as exact
    rationals (`ℚ`); Python `round(x, n)` is modelled as round-half-to-even
    at `n` decimal places, which is its documented behaviour on exact values.
  - `datetime` values are modelled as integer timestamps in seconds;
    `timedelta(minutes=30)` is `30 * 60`.  Each textual occurrence of
    `datetime.now()` becomes an explicit parameter, so the two successive
    `now()` reads inside `create_payment_order` are two parameters.
  - `st.session_state.payment_orders` (a Python dict) is an association
    list `List (String × Order)` whose keys are unique (dict invariant).
  - A Python function that can raise is embedded with an explicit error
    result (`Option` / an error flag); one that cannot raise is total.
-/

namespace Kaspay

/-- The supported assets: the keys of `self.crypto_configs` (Kaspay.py:48-79). -/
inductive CryptoType where
  | kaspa
  | dogecoin
  | litecoin
deriving DecidableEq, Repr

/-- One entry of `self.crypto_configs` (Kaspay.py:49-78). -/
structure CryptoConfig where
  name : String
  symbol : String
  icon : String
  api_base : String
  merchant_address : String
  uri_prefix : String
  coingecko_id : String
  decimals : Nat
deriving DecidableEq, Repr

/-- Config table `self.crypto_configs` (Kaspay.py:48-79), with the literal configured values. -/
def crypto_configs : CryptoType → CryptoConfig
  | .kaspa =>
    { name := "Kaspa"
      symbol := "KAS"
      icon := "💎"
      api_base := "https://api.kaspa.org"
      merchant_address := "kaspa:qz8z7g3q4x5w6v7u8t9s0r1q2p3o4n5m6l7k8j9h0g1f2e3d4c5b6a7"
      uri_prefix := "kaspa:"
      coingecko_id := "kaspa"
      decimals := 8 }
  | .dogecoin =>
    { name := "Dogecoin"
      symbol := "DOGE"
      icon := "🐕"
      api_base := "https://dogechain.info/api/v1"
      merchant_address := "DH5yaieqoZN36fDVciNyRueRGvGLR3mr7L"
      uri_prefix := "dogecoin:"
      coingecko_id := "dogecoin"
      decimals := 8 }
  | .litecoin =>
    { name := "Litecoin"
      symbol := "LTC"
      icon := "🔶"
      api_base := "https://api.blockcypher.com/v1/ltc/main"
      merchant_address := "LdP8Qox1VAhCzLJNqrr74YovaWYyNBUWvL"
      uri_prefix := "litecoin:"
      coingecko_id := "litecoin"
      decimals := 8 }

/-- The hardcoded initial price cache `st.session_state.crypto_prices`
(Kaspay.py:37-41): kaspa 0.15, dogecoin 0.08, litecoin 75.0 USD. -/
def initial_crypto_prices : CryptoType → ℚ
  | .kaspa => 0.15
  | .dogecoin => 0.08
  | .litecoin => 75.0

/-- Round a rational to the nearest integer, ties to even — the rounding rule
of Python's built-in `round` on exact values. -/
def roundHalfEven (q : ℚ) : ℤ :=
  let f : ℤ := ⌊q⌋
  let frac : ℚ := q - (f : ℚ)
  if frac < 1/2 then f
  else if 1/2 < frac then f + 1
  else if f % 2 = 0 then f else f + 1

/-- Python `round(x, n)`: round `x` to `n` decimal places, ties to even. -/
def pyRound (x : ℚ) (n : ℕ) : ℚ :=
  (roundHalfEven (x * 10 ^ n) : ℚ) / 10 ^ n

/-- Outcome of the single HTTP GET inside `get_crypto_prices`
(Kaspay.py:86-89): either a response with a status code and a parsed JSON
body, or a raised exception (network error, timeout, ...).  The JSON body
`{"<coingecko_id>": {"usd": <number>}}` is modelled as a partial map from
asset to its `usd` price; the coingecko id of each supported asset coincides
with its config key. -/
inductive QuoteResponse where
  | ok (status_code : Nat) (data : CryptoType → Option ℚ)
  | failure

/-- Price lookup `get_crypto_prices` (Kaspay.py:81-104): on a 200 response, take each
asset's price from the JSON body when present and fall back to the cached
price otherwise; on any non-200 response or raised exception, return the
cached prices unchanged.  Never raises. -/
def get_crypto_prices (resp : QuoteResponse) (cached : CryptoType → ℚ) :
    CryptoType → ℚ :=
  match resp with
  | .ok status_code data =>
    if status_code = 200 then
      fun crypto =>
        match data crypto with
        | some p => p
        | none => cached crypto
    else cached
  | .failure => cached

/-- One payment order: the dict built at Kaspay.py:113-127. -/
structure Order where
  id : String
  amount_usd : ℚ
  crypto_type : CryptoType
  crypto_amount : ℚ
  crypto_price : ℚ
  crypto_symbol : String
  crypto_name : String
  description : String
  status : String
  created_at : ℤ
  expires_at : ℤ
  payment_address : String
  txid : Option String
deriving DecidableEq, Repr

/-- Order creation `create_payment_order(amount_usd, crypto_type, description)`
(Kaspay.py:106-129).  `order_id` stands for the generated `str(uuid.uuid4())`;
`resp`/`cached` feed the internal `get_crypto_prices` call; `now_created` and
`now_expires` are the two successive `datetime.now()` reads at lines 123-124.
Returns `none` exactly when the looked-up price is zero (Python raises
`ZeroDivisionError` at line 111); there is no other failure path — in
particular `amount_usd` is not validated. -/
def create_payment_order (order_id : String) (amount_usd : ℚ)
    (crypto_type : CryptoType) (description : String)
    (resp : QuoteResponse) (cached : CryptoType → ℚ)
    (now_created now_expires : ℤ) : Option Order :=
  let prices := get_crypto_prices resp cached
  let crypto_price := prices crypto_type
  if crypto_price = 0 then none
  else
    let crypto_amount :=
      pyRound (amount_usd / crypto_price) (crypto_configs crypto_type).decimals
    some
      { id := order_id
        amount_usd := amount_usd
        crypto_type := crypto_type
        crypto_amount := crypto_amount
        crypto_price := crypto_price
        crypto_symbol := (crypto_configs crypto_type).symbol
        crypto_name := (crypto_configs crypto_type).name
        description := description
        status := "pending"
        created_at := now_created
        expires_at := now_expires + 30 * 60
        payment_address := (crypto_configs crypto_type).merchant_address
        txid := none }

/-- URI builder `get_crypto_uri(crypto_type, address, amount, message="")` (Kaspay.py:159-165):
plain string concatenation, appending `&message=` only when `message` is
truthy (non-empty), with no escaping.  `amount` is the decimal rendering of
the Python float interpolated by the f-string (e.g. `"1.5"` for `1.5`). -/
def get_crypto_uri (crypto_type : CryptoType) (address : String)
    (amount : String) (message : String) : String :=
  let config := crypto_configs crypto_type
  let crypto_uri := CryptoConfig.uri_prefix config ++ address ++ "?amount=" ++ amount
  if message ≠ "" then crypto_uri ++ "&message=" ++ message
  else crypto_uri

/-- Status check `check_payment_status(order_id, expected_amount, address, crypto_type)`
(Kaspay.py:167-192): the `try` body only looks up the config and runs
per-asset branches that are all `pass`, then returns `'pending'`.  For a
supported `crypto_type` nothing in the body can raise, so the `except`
branch returning `'error'` is unreachable and the function is the constant
`"pending"`. -/
def check_payment_status (order_id : String) (expected_amount : ℚ)
    (address : String) (crypto_type : CryptoType) : String :=
  let _config := crypto_configs crypto_type
  "pending"

/-- The order dict `st.session_state.payment_orders`: a map from order id to order,
modelled as an association list with unique keys. -/
abbrev Ledger : Type := List (String × Order)

/-- Dict lookup `payment_orders[order_id]` as an `Option`. -/
def ledger_lookup (order_id : String) : Ledger → Option Order
  | [] => none
  | (k, o) :: rest => if order_id = k then some o else ledger_lookup order_id rest

/-- The per-order body of the check-all-orders sweep (Kaspay.py:296-301):
if the order is pending and `now` is strictly past `expires_at`, its status
becomes `'expired'`; otherwise it is untouched. -/
def sweep_order (now : ℤ) (o : Order) : Order :=
  if o.status = "pending" ∧ o.expires_at < now then { o with status := "expired" }
  else o

/-- The "🔄 检查所有订单状态" handler (Kaspay.py:295-302): for every order
with status `'pending'` and `now > expires_at`, set status to `'expired'`.
No entry is added or removed and keys are unchanged. -/
def sweep_expired (now : ℤ) (ledger : Ledger) : Ledger :=
  ledger.map fun p => (p.1, sweep_order now p.2)

/-- The ids collected by the list comprehension at Kaspay.py:306-309:
all order ids whose status is `'expired'`. -/
def expired_order_ids (ledger : Ledger) : List String :=
  (ledger.filter fun p => p.2.status = "expired").map Prod.fst

/-- The "🗑️ 清除已过期订单" handler (Kaspay.py:305-311): collect the expired
ids, then delete each one from the dict. -/
def clear_expired (ledger : Ledger) : Ledger :=
  (expired_order_ids ledger).foldl
    (fun l oid => l.filter fun p => p.1 ≠ oid) ledger

/-- Deletion `del st.session_state.payment_orders[order_id]` (Kaspay.py:461): Python
`del` on a dict raises `KeyError` when the key is absent and removes the
entry otherwise.  The first component records whether `KeyError` was raised;
the second is the dict afterwards (unchanged when the deletion raised). -/
def delete_order (ledger : Ledger) (order_id : String) : Bool × Ledger :=
  if (ledger_lookup order_id ledger).isSome then
    (false, ledger.filter fun p => p.1 ≠ order_id)
  else
    (true, ledger)

/-- The full mutable session state: `payment_orders` and the price cache
`crypto_prices` (Kaspay.py:34-41). -/
structure AppState where
  payment_orders : Ledger
  crypto_prices : CryptoType → ℚ

/-- The operations that touch the session state after an order exists:
the batch handlers (Kaspay.py:295-316), the per-order handlers
(Kaspay.py:440-463), and the sidebar price refresh (Kaspay.py:205-206). -/
inductive LedgerOp where
  /-- Batch button "检查所有订单状态": sweep expired orders at time `now`. -/
  | checkAllOrders (now : ℤ)
  /-- Batch button "清除已过期订单": delete every expired order. -/
  | clearExpired
  /-- Per-order button "🔍 检查支付状态": write the result of
  `check_payment_status` back into that order's status (Kaspay.py:440-450). -/
  | checkPaymentStatus (order_id : String)
  /-- Per-order button "✅ 标记为已完成": shown only when the order is pending; sets its
  status to `'confirmed'` (Kaspay.py:452-457). -/
  | markConfirmed (order_id : String)
  /-- Per-order button "🗑️ 删除订单" (Kaspay.py:459-463). -/
  | deleteOrder (order_id : String)
  /-- Sidebar price refresh (Kaspay.py:205-206): overwrites the price cache
  with `get_crypto_prices`; never touches `payment_orders`. -/
  | refreshPrices (resp : QuoteResponse)

/-- Effect of each operation on the session state, transcribed from the
handlers cited on `LedgerOp`. -/
def applyOp (op : LedgerOp) (s : AppState) : AppState :=
  match op with
  | .checkAllOrders now =>
    { s with payment_orders := sweep_expired now s.payment_orders }
  | .clearExpired =>
    { s with payment_orders := clear_expired s.payment_orders }
  | .checkPaymentStatus oid =>
    { s with payment_orders := s.payment_orders.map (fun p =>
        (p.1,
          if p.1 = oid then
            { p.2 with status :=
                (check_payment_status p.1 p.2.crypto_amount
                  p.2.payment_address p.2.crypto_type) }
          else p.2)) }
  | .markConfirmed oid =>
    { s with payment_orders := s.payment_orders.map (fun p =>
        (p.1,
          if p.1 = oid ∧ p.2.status = "pending" then
            { p.2 with status := "confirmed" }
          else p.2)) }
  | .deleteOrder oid =>
    { s with payment_orders := (delete_order s.payment_orders oid).2 }
  | .refreshPrices resp =>
    { s with crypto_prices := get_crypto_prices resp s.crypto_prices }

/-- The failure cases of the Quote Source call: a raised exception
(network error / timeout) or a non-2xx HTTP status. -/
def quote_failed : QuoteResponse → Prop
  | .ok status_code _ => ¬(200 ≤ status_code ∧ status_code < 300)
  | .failure => True

/-- A concrete pending order, used to instantiate general theorems. -/
def sampleOrder : Order :=
  { id := "order-a"
    amount_usd := 10
    crypto_type := .kaspa
    crypto_amount := 6666666667 / 10 ^ 8
    crypto_price := 0.15
    crypto_symbol := "KAS"
    crypto_name := "Kaspa"
    description := "demo"
    status := "pending"
    created_at := 0
    expires_at := 1800
    payment_address := "kaspa:qz8z7g3q4x5w6v7u8t9s0r1q2p3o4n5m6l7k8j9h0g1f2e3d4c5b6a7"
    txid := none }

/-- A concrete expired order, used to instantiate general theorems. -/
def expiredSampleOrder : Order :=
  { sampleOrder with id := "order-e", status := "expired" }

/-- The sample order after the mark-confirmed handler ran on it. -/
def confirmedSampleOrder : Order :=
  { sampleOrder with status := "confirmed" }

/-- The exact order produced by
`create_payment_order "w7" 10 kaspa "d"` under a failed quote call with the
initial cache and both clock reads at 0. -/
def sampleCreatedOrder : Order :=
  { id := "w7"
    amount_usd := 10
    crypto_type := .kaspa
    crypto_amount := 6666666667 / 10 ^ 8
    crypto_price := 0.15
    crypto_symbol := "KAS"
    crypto_name := "Kaspa"
    description := "d"
    status := "pending"
    created_at := 0
    expires_at := 1800
    payment_address := "kaspa:qz8z7g3q4x5w6v7u8t9s0r1q2p3o4n5m6l7k8j9h0g1f2e3d4c5b6a7"
    txid := none }



lemma mem_of_ledger_lookup {oid : String} {l : Ledger} {o : Order}
    (h : ledger_lookup oid l = some o) : (oid, o) ∈ l := by
  induction l with
  | nil => simp [ledger_lookup] at h
  | cons p t ih =>
    obtain ⟨k, v⟩ := p
    by_cases hk : oid = k
    · subst hk
      simp [ledger_lookup] at h
      rw [← h]
      exact List.mem_cons_self _ _
    · simp [ledger_lookup, hk] at h
      exact List.mem_cons_of_mem _ (ih h)

lemma ledger_lookup_map_eq (f : String × Order → String × Order)
    (hf : ∀ p, (f p).1 = p.1) (oid : String) (l : Ledger) (o : Order)
    (h : ledger_lookup oid l = some o) :
    ledger_lookup oid (l.map f) = some (f (oid, o)).2 := by
  induction l with
  | nil => simp [ledger_lookup] at h
  | cons p t ih =>
    obtain ⟨k, v⟩ := p
    by_cases hk : oid = k
    · subst hk
      simp [ledger_lookup] at h
      subst h
      rcases hfv : f (oid, v) with ⟨fk, fv⟩
      have h1 : fk = oid := by
        have h2 := hf (oid, v)
        rw [hfv] at h2
        simpa using h2
      simp [List.map_cons, hfv, ledger_lookup, h1]
    · simp only [ledger_lookup, if_neg hk] at h
      rcases hfv : f (k, v) with ⟨fk, fv⟩
      have h1 : fk = k := by
        have h2 := hf (k, v)
        rw [hfv] at h2
        simpa using h2
      simp only [List.map_cons, hfv, ledger_lookup]
      rw [if_neg (by rw [h1]; exact hk)]
      exact ih h

lemma ledger_lookup_filter_eq {P : String × Order → Bool} {l : Ledger}
    {oid : String} {o o' : Order}
    (hnd : (l.map Prod.fst).Nodup)
    (ho : ledger_lookup oid l = some o)
    (ho' : ledger_lookup oid (l.filter P) = some o') : o' = o := by
  have h1 : (oid, o) ∈ l := mem_of_ledger_lookup ho
  have h2 : (oid, o') ∈ l := List.mem_of_mem_filter (mem_of_ledger_lookup ho')
  have h3 : ((oid, o') : String × Order) = (oid, o) :=
    List.inj_on_of_nodup_map hnd h2 h1 rfl
  exact (Prod.ext_iff.mp h3).2

lemma foldl_delete_eq_filter (ids : List String) :
    ∀ l : Ledger,
      ids.foldl (fun l oid => l.filter fun p => p.1 ≠ oid) l =
        l.filter (fun p => decide (p.1 ∉ ids)) := by
  induction ids with
  | nil => intro l; simp
  | cons a ids ih =>
    intro l
    simp only [List.foldl_cons]
    rw [ih, List.filter_filter]
    apply List.filter_congr
    intro x _
    by_cases h1 : x.1 = a <;> by_cases h2 : x.1 ∈ ids <;>
      simp [h1, h2]

lemma clear_expired_eq_filter (l : Ledger) :
    clear_expired l = l.filter (fun p => decide (p.1 ∉ expired_order_ids l)) := by
  unfold clear_expired
  exact foldl_delete_eq_filter _ l

lemma mem_expired_order_ids {l : Ledger} {p : String × Order}
    (hnd : (l.map Prod.fst).Nodup) (hp : p ∈ l) :
    p.1 ∈ expired_order_ids l ↔ p.2.status = "expired" := by
  constructor
  · intro h
    unfold expired_order_ids at h
    obtain ⟨q, hq, hq1⟩ := List.mem_map.mp h
    have hql : q ∈ l := List.mem_of_mem_filter hq
    have hqs : q.2.status = "expired" := by
      have := List.of_mem_filter hq
      simpa using this
    have hqp : q = p := List.inj_on_of_nodup_map hnd hql hp hq1
    rw [← hqp]
    exact hqs
  · intro h
    unfold expired_order_ids
    exact List.mem_map.mpr ⟨p, List.mem_filter.mpr ⟨hp, by simp [h]⟩, rfl⟩

lemma sweep_order_idem (now : ℤ) (o : Order) :
    sweep_order now (sweep_order now o) = sweep_order now o := by
  unfold sweep_order
  by_cases h : o.status = "pending" ∧ o.expires_at < now
  · rw [if_pos h]
    split
    · rename_i hc
      exact absurd (show ("expired" : String) = "pending" from hc.1) (by decide)
    · rfl
  · rw [if_neg h, if_neg h]

/-- C1: for every amount_usd > 0 and every supported asset whose current USD
price (as returned by the internal `get_crypto_prices` call) is a fixed p > 0,
`create_payment_order` returns an order whose `crypto_amount` equals
`round(amount_usd / p, d)` with d the asset's configured decimal precision,
and whose `crypto_price` equals p. -/
theorem claim_C1_create_pricing (order_id description : String)
    (amount_usd p : ℚ) (crypto_type : CryptoType)
    (resp : QuoteResponse) (cached : CryptoType → ℚ) (now_created now_expires : ℤ)
    (hamt : 0 < amount_usd)
    (hprice : get_crypto_prices resp cached crypto_type = p)
    (hpos : 0 < p) :
    ∃ o, create_payment_order order_id amount_usd crypto_type description resp cached
        now_created now_expires = some o ∧
      o.crypto_amount = pyRound (amount_usd / p) (crypto_configs crypto_type).decimals ∧
      o.crypto_price = p := by
  have hne : p ≠ 0 := ne_of_gt hpos
  simp only [create_payment_order]
  rw [hprice, if_neg hne]
  exact ⟨_, rfl, rfl, rfl⟩

/-- Witness for C1 at a concrete input: amount 10 USD, kaspa at the cached
price 0.15. -/
theorem claim_C1_create_pricing_witness :
    (0 : ℚ) < 10 ∧
    get_crypto_prices QuoteResponse.failure initial_crypto_prices CryptoType.kaspa = 0.15 ∧
    (0 : ℚ) < 0.15 ∧
    (∃ o, create_payment_order "w1" 10 CryptoType.kaspa "demo" QuoteResponse.failure
        initial_crypto_prices 0 0 = some o ∧
      o.crypto_amount = pyRound (10 / 0.15) (crypto_configs CryptoType.kaspa).decimals ∧
      o.crypto_price = 0.15) :=
  ⟨by norm_num, rfl, by norm_num,
    claim_C1_create_pricing "w1" "demo" 10 0.15 CryptoType.kaspa QuoteResponse.failure
      initial_crypto_prices 0 0 (by norm_num) rfl (by norm_num)⟩

/-- C2: whenever the Quote Source HTTP call fails (raises, times out, or
returns a non-2xx status), `get_crypto_prices` returns the previously cached
price for every asset, and `create_payment_order` under such a failure still
returns an order priced with the cached price. -/
theorem claim_C2_quote_failure_fallback (resp : QuoteResponse) (cached : CryptoType → ℚ)
    (hfail : quote_failed resp) :
    (∀ crypto, get_crypto_prices resp cached crypto = cached crypto) ∧
    ∀ (order_id description : String) (amount_usd : ℚ) (crypto_type : CryptoType)
      (now_created now_expires : ℤ), cached crypto_type ≠ 0 →
      ∃ o, create_payment_order order_id amount_usd crypto_type description resp cached
          now_created now_expires = some o ∧
        o.crypto_price = cached crypto_type := by
  have hcache : get_crypto_prices resp cached = cached := by
    cases resp with
    | failure => rfl
    | ok status_code data =>
      have hne : status_code ≠ 200 := by
        intro h
        subst h
        exact hfail ⟨by norm_num, by norm_num⟩
      simp [get_crypto_prices, hne]
  refine ⟨fun crypto => by rw [hcache], ?_⟩
  intro order_id description amount_usd crypto_type now_created now_expires hne
  simp only [create_payment_order]
  rw [hcache, if_neg hne]
  exact ⟨_, rfl, rfl⟩

/-- Witness for C2: a raised-exception response with the initial cache;
creation of a 25 USD kaspa order still succeeds at the cached 0.15. -/
theorem claim_C2_quote_failure_fallback_witness :
    quote_failed QuoteResponse.failure ∧
    (∀ crypto, get_crypto_prices QuoteResponse.failure initial_crypto_prices crypto =
      initial_crypto_prices crypto) ∧
    initial_crypto_prices CryptoType.kaspa ≠ 0 ∧
    (∃ o, create_payment_order "w2" 25 CryptoType.kaspa "d" QuoteResponse.failure
        initial_crypto_prices 0 0 = some o ∧
      o.crypto_price = initial_crypto_prices CryptoType.kaspa) :=
  ⟨by trivial,
    (claim_C2_quote_failure_fallback QuoteResponse.failure initial_crypto_prices
      (by trivial)).1,
    by norm_num [initial_crypto_prices],
    (claim_C2_quote_failure_fallback QuoteResponse.failure initial_crypto_prices
      (by trivial)).2 "w2" "d" 25 CryptoType.kaspa 0 0
      (by norm_num [initial_crypto_prices])⟩

/-- C3: the expiry sweep is idempotent — for every ledger and fixed current
time, sweeping twice yields the same ledger as sweeping once. -/
theorem claim_C3_sweep_idempotent (now : ℤ) (ledger : Ledger) :
    sweep_expired now (sweep_expired now ledger) = sweep_expired now ledger := by
  induction ledger with
  | nil => rfl
  | cons p t ih =>
    simp only [sweep_expired, List.map_cons] at ih ⊢
    rw [sweep_order_idem]
    exact congrArg _ ih

/-- C4: the payment-URI builder produces exactly
`<scheme_prefix><address>?amount=<amount>` for an empty memo and
`<scheme_prefix><address>?amount=<amount>&message=<memo>` otherwise, with no
escaping; in particular the two concrete kaspa examples hold. -/
theorem claim_C4_uri_builder :
    (∀ (crypto_type : CryptoType) (address amount message : String),
      get_crypto_uri crypto_type address amount message =
        if message = "" then
          CryptoConfig.uri_prefix (crypto_configs crypto_type) ++ address ++
            "?amount=" ++ amount
        else
          CryptoConfig.uri_prefix (crypto_configs crypto_type) ++ address ++
            "?amount=" ++ amount ++ "&message=" ++ message) ∧
    get_crypto_uri CryptoType.kaspa "ADDR123" "1.5" "" = "kaspa:ADDR123?amount=1.5" ∧
    get_crypto_uri CryptoType.kaspa "ADDR123" "1.5" "x" =
      "kaspa:ADDR123?amount=1.5&message=x" := by
  refine ⟨?_, rfl, rfl⟩
  intro crypto_type address amount message
  by_cases h : message = ""
  · simp [get_crypto_uri, h]
  · simp [get_crypto_uri, h]

/-- C5: the payment-status check is a stub — it returns "pending" for every
order id, expected amount, address, and supported crypto type. -/
theorem claim_C5_status_stub (order_id : String) (expected_amount : ℚ)
    (address : String) (crypto_type : CryptoType) :
    check_payment_status order_id expected_amount address crypto_type = "pending" := rfl

/-- C6 counterexample: at amount_usd = 0 (which is ≤ 0) `create_payment_order`
does not fail — it returns an order. -/
theorem claim_C6_counterexample :
    (0 : ℚ) ≤ 0 ∧
    (create_payment_order "oid" 0 CryptoType.kaspa "" QuoteResponse.failure
        initial_crypto_prices 0 0).isSome = true := by
  refine ⟨le_refl 0, ?_⟩
  norm_num [create_payment_order, get_crypto_prices, initial_crypto_prices]

/-- C6 (amended): `create_payment_order` performs no validation of
`amount_usd`; whenever the looked-up price is non-zero it returns an order,
even for `amount_usd ≤ 0`.  (The constraint amount_usd ≥ 0.01 exists only on
the UI number-input widget, Kaspay.py:241-247.) -/
theorem claim_C6_amended (order_id description : String) (amount_usd : ℚ)
    (crypto_type : CryptoType) (resp : QuoteResponse) (cached : CryptoType → ℚ)
    (now_created now_expires : ℤ)
    (hprice : get_crypto_prices resp cached crypto_type ≠ 0) :
    (create_payment_order order_id amount_usd crypto_type description resp cached
        now_created now_expires).isSome = true := by
  simp only [create_payment_order]
  rw [if_neg hprice]
  rfl

/-- Witness for the amended C6 at the non-positive amount −5. -/
theorem claim_C6_amended_witness :
    get_crypto_prices QuoteResponse.failure initial_crypto_prices CryptoType.kaspa ≠ 0 ∧
    (create_payment_order "w6" (-5) CryptoType.kaspa "" QuoteResponse.failure
        initial_crypto_prices 0 0).isSome = true :=
  ⟨by norm_num [get_crypto_prices, initial_crypto_prices],
    claim_C6_amended "w6" "" (-5) CryptoType.kaspa QuoteResponse.failure
      initial_crypto_prices 0 0 (by norm_num [get_crypto_prices, initial_crypto_prices])⟩


/-- C7 counterexample: with the two `datetime.now()` reads at 0 s and 60 s,
the created order has expires_at = 1860 s, which is not created_at + 30 min
= 1800 s. -/
theorem claim_C7_counterexample :
    (create_payment_order "oid" 10 CryptoType.kaspa "" QuoteResponse.failure
        initial_crypto_prices 0 60).map Order.created_at = some 0 ∧
    (create_payment_order "oid" 10 CryptoType.kaspa "" QuoteResponse.failure
        initial_crypto_prices 0 60).map Order.expires_at = some 1860 ∧
    (1860 : ℤ) ≠ 0 + 30 * 60 := by
  refine ⟨?_, ?_, by norm_num⟩ <;>
    norm_num [create_payment_order, get_crypto_prices, initial_crypto_prices]

/-- C7 (amended): every order returned by `create_payment_order` has status
"pending"; its created_at is the first `datetime.now()` read and its
expires_at is the *second* read plus 30 minutes, so (the reads being
monotone) expires_at ≥ created_at + 30 min, with equality exactly when the
two reads coincide. -/
theorem claim_C7_amended (order_id description : String) (amount_usd : ℚ)
    (crypto_type : CryptoType) (resp : QuoteResponse) (cached : CryptoType → ℚ)
    (now_created now_expires : ℤ) (o : Order)
    (h : create_payment_order order_id amount_usd crypto_type description resp cached
        now_created now_expires = some o) :
    o.status = "pending" ∧ o.created_at = now_created ∧
      o.expires_at = now_expires + 30 * 60 ∧
      (now_created ≤ now_expires → o.created_at + 30 * 60 ≤ o.expires_at) ∧
      (now_created = now_expires → o.expires_at = o.created_at + 30 * 60) := by
  simp only [create_payment_order] at h
  by_cases hp : get_crypto_prices resp cached crypto_type = 0
  · rw [if_pos hp] at h
    exact absurd h (by simp)
  · rw [if_neg hp] at h
    injection h with h
    subst h
    refine ⟨rfl, rfl, rfl, fun hle => ?_, fun heq => ?_⟩
    · simp only
      omega
    · simp only
      omega

/-- Witness for the amended C7 with both clock reads at 0. -/
theorem claim_C7_amended_witness :
    create_payment_order "w7" 10 CryptoType.kaspa "d" QuoteResponse.failure
        initial_crypto_prices 0 0 = some sampleCreatedOrder ∧
    (sampleCreatedOrder.status = "pending" ∧ sampleCreatedOrder.created_at = 0 ∧
      sampleCreatedOrder.expires_at = 0 + 30 * 60 ∧
      ((0 : ℤ) ≤ 0 → sampleCreatedOrder.created_at + 30 * 60 ≤ sampleCreatedOrder.expires_at) ∧
      ((0 : ℤ) = 0 → sampleCreatedOrder.expires_at = sampleCreatedOrder.created_at + 30 * 60)) := by
  have h : create_payment_order "w7" 10 CryptoType.kaspa "d" QuoteResponse.failure
      initial_crypto_prices 0 0 = some sampleCreatedOrder := by
    norm_num [create_payment_order, get_crypto_prices, initial_crypto_prices,
      pyRound, roundHalfEven, sampleCreatedOrder, crypto_configs, Order.mk.injEq]
  exact ⟨h, claim_C7_amended "w7" "d" 10 CryptoType.kaspa QuoteResponse.failure
    initial_crypto_prices 0 0 sampleCreatedOrder h⟩

/-- C8 counterexample: deleting the absent id "missing" from the empty ledger
raises KeyError (first component true), contradicting "does not raise". -/
theorem claim_C8_counterexample :
    ledger_lookup "missing" ([] : Ledger) = none ∧
    (delete_order ([] : Ledger) "missing").1 = true ∧
    (delete_order ([] : Ledger) "missing").2 = [] :=
  ⟨rfl, rfl, rfl⟩

/-- C8 (amended): deleting an id absent from the ledger raises KeyError and
leaves the ledger unchanged.  (The UI renders a delete button only for ids
present in the ledger, so the raise is unreachable through the page.) -/
theorem claim_C8_amended (ledger : Ledger) (order_id : String)
    (h : ledger_lookup order_id ledger = none) :
    delete_order ledger order_id = (true, ledger) := by
  simp [delete_order, h]

/-- Witness for the amended C8: a one-order ledger and an absent id. -/
theorem claim_C8_amended_witness :
    ledger_lookup "missing" ([("order-a", sampleOrder)] : Ledger) = none ∧
    delete_order ([("order-a", sampleOrder)] : Ledger) "missing" =
      (true, [("order-a", sampleOrder)]) := by
  have h : ledger_lookup "missing" ([("order-a", sampleOrder)] : Ledger) = none := by
    simp [ledger_lookup]
  exact ⟨h, claim_C8_amended _ _ h⟩


/-- C9: no post-creation operation (status check, mark-confirmed, expiry
sweep, delete, clear-expired, or price refresh) ever modifies the
`crypto_amount` or `crypto_price` of an order that remains in the ledger. -/
theorem claim_C9_fields_immutable (op : LedgerOp) (s : AppState) (oid : String)
    (o o' : Order)
    (hnd : (s.payment_orders.map Prod.fst).Nodup)
    (ho : ledger_lookup oid s.payment_orders = some o)
    (ho' : ledger_lookup oid (applyOp op s).payment_orders = some o') :
    o'.crypto_amount = o.crypto_amount ∧ o'.crypto_price = o.crypto_price := by
  cases op with
  | checkAllOrders now =>
    simp only [applyOp, sweep_expired] at ho'
    rw [ledger_lookup_map_eq (fun p => (p.1, sweep_order now p.2))
      (fun p => rfl) _ _ _ ho] at ho'
    injection ho' with h
    subst h
    unfold sweep_order
    split
    · exact ⟨rfl, rfl⟩
    · exact ⟨rfl, rfl⟩
  | clearExpired =>
    simp only [applyOp] at ho'
    rw [clear_expired_eq_filter] at ho'
    have heq := ledger_lookup_filter_eq hnd ho ho'
    subst heq
    exact ⟨rfl, rfl⟩
  | checkPaymentStatus oid2 =>
    simp only [applyOp] at ho'
    rw [ledger_lookup_map_eq
      (fun p => (p.1,
        if p.1 = oid2 then
          { p.2 with status :=
              (check_payment_status p.1 p.2.crypto_amount
                p.2.payment_address p.2.crypto_type) }
        else p.2))
      (fun p => rfl) _ _ _ ho] at ho'
    injection ho' with h
    subst h
    dsimp only
    split
    · exact ⟨rfl, rfl⟩
    · exact ⟨rfl, rfl⟩
  | markConfirmed oid2 =>
    simp only [applyOp] at ho'
    rw [ledger_lookup_map_eq
      (fun p => (p.1,
        if p.1 = oid2 ∧ p.2.status = "pending" then
          { p.2 with status := "confirmed" }
        else p.2))
      (fun p => rfl) _ _ _ ho] at ho'
    injection ho' with h
    subst h
    dsimp only
    split
    · exact ⟨rfl, rfl⟩
    · exact ⟨rfl, rfl⟩
  | deleteOrder oid2 =>
    simp only [applyOp, delete_order] at ho'
    split at ho'
    · dsimp only at ho'
      have heq := ledger_lookup_filter_eq hnd ho ho'
      subst heq
      exact ⟨rfl, rfl⟩
    · dsimp only at ho'
      rw [ho] at ho'
      injection ho' with h
      subst h
      exact ⟨rfl, rfl⟩
  | refreshPrices resp =>
    simp only [applyOp] at ho'
    rw [ho] at ho'
    injection ho' with h
    subst h
    exact ⟨rfl, rfl⟩

/-- Witness for C9: marking the sample pending order confirmed changes its
status only; crypto_amount and crypto_price are untouched. -/
theorem claim_C9_fields_immutable_witness :
    ((([("order-a", sampleOrder)] : Ledger).map Prod.fst).Nodup ∧
      ledger_lookup "order-a" ([("order-a", sampleOrder)] : Ledger) = some sampleOrder ∧
      ledger_lookup "order-a"
        (applyOp (LedgerOp.markConfirmed "order-a")
          ⟨[("order-a", sampleOrder)], initial_crypto_prices⟩).payment_orders =
        some confirmedSampleOrder) ∧
    confirmedSampleOrder.crypto_amount = sampleOrder.crypto_amount ∧
    confirmedSampleOrder.crypto_price = sampleOrder.crypto_price := by
  have h1 : (([("order-a", sampleOrder)] : Ledger).map Prod.fst).Nodup := by
    simp
  have h2 : ledger_lookup "order-a" ([("order-a", sampleOrder)] : Ledger) =
      some sampleOrder := by
    simp [ledger_lookup]
  have h3 : ledger_lookup "order-a"
      (applyOp (LedgerOp.markConfirmed "order-a")
        ⟨[("order-a", sampleOrder)], initial_crypto_prices⟩).payment_orders =
      some confirmedSampleOrder := by
    simp [applyOp, ledger_lookup, sampleOrder, confirmedSampleOrder]
  exact ⟨⟨h1, h2, h3⟩,
    claim_C9_fields_immutable (LedgerOp.markConfirmed "order-a")
      ⟨[("order-a", sampleOrder)], initial_crypto_prices⟩ "order-a"
      sampleOrder confirmedSampleOrder h1 h2 h3⟩

/-- C10: the clear-expired bulk action removes exactly the expired orders —
every entry of the result was in the ledger with a non-expired status, and
every pending/confirmed/failed entry survives unchanged. -/
theorem claim_C10_clear_expired (l : Ledger) (hnd : (l.map Prod.fst).Nodup) :
    (∀ p ∈ clear_expired l, p ∈ l ∧ p.2.status ≠ "expired") ∧
    (∀ p ∈ l, p.2.status = "pending" ∨ p.2.status = "confirmed" ∨
      p.2.status = "failed" → p ∈ clear_expired l) := by
  constructor
  · intro p hp
    rw [clear_expired_eq_filter] at hp
    have hmem : p ∈ l := List.mem_of_mem_filter hp
    refine ⟨hmem, ?_⟩
    intro hexp
    have hfil := List.of_mem_filter hp
    exact (of_decide_eq_true hfil) ((mem_expired_order_ids hnd hmem).mpr hexp)
  · intro p hp hst
    rw [clear_expired_eq_filter]
    refine List.mem_filter.mpr ⟨hp, ?_⟩
    apply decide_eq_true
    intro hin
    have hexp := (mem_expired_order_ids hnd hp).mp hin
    rcases hst with h | h | h <;> rw [h] at hexp <;>
      exact absurd hexp (by decide)

/-- Witness for C10: a two-order ledger (one pending, one expired). -/
theorem claim_C10_clear_expired_witness :
    ((([("order-a", sampleOrder), ("order-e", expiredSampleOrder)] : Ledger).map
      Prod.fst).Nodup) ∧
    ((∀ p ∈ clear_expired
        ([("order-a", sampleOrder), ("order-e", expiredSampleOrder)] : Ledger),
        p ∈ ([("order-a", sampleOrder), ("order-e", expiredSampleOrder)] : Ledger) ∧
        p.2.status ≠ "expired") ∧
      (∀ p ∈ ([("order-a", sampleOrder), ("order-e", expiredSampleOrder)] : Ledger),
        p.2.status = "pending" ∨ p.2.status = "confirmed" ∨ p.2.status = "failed" →
        p ∈ clear_expired
          ([("order-a", sampleOrder), ("order-e", expiredSampleOrder)] : Ledger))) := by
  have h1 : ((([("order-a", sampleOrder), ("order-e", expiredSampleOrder)] : Ledger).map
      Prod.fst).Nodup) := by
    simp [expiredSampleOrder]
  exact ⟨h1, claim_C10_clear_expired _ h1⟩

end Kaspay
